import Mathlib

/-!
Shallow embedding of the timelapse camera frontend (src/src/App.tsx).

The app is a React component; its capture logic is a handful of closures over
component state (`activeStream`, `videoRef`, `canvasRef`, `status`,
`scheduleOptions`, `intervalValue` / `intervalUnit` / `actualIntervalMs`,
`capturing` / `capturingRef`, `intervalId`).  We embed that state as an
explicit record (`CamState`, `SchedState`) and each closure as a pure
state-passing function.  JavaScript numbers that can be `NaN` (the parsed
clock components in `isDaylight`) are embedded as `Option Int`, with `none`
playing the role of `NaN`: arithmetic propagates `none` and every comparison
against `none` is `false`, exactly as every comparison against `NaN` is false
in JavaScript.  A `throw` inside a `try` block is embedded as
`Except String`; the `catch` and `finally` clauses are explicit.  External
outcomes (whether `getUserMedia` is granted, the HTTP status of the upload
response, whether `fetch` itself rejects, the canvas context) are an `Env`
record consumed by the tick.  Hardware-touching side effects are recorded in
an event trace so ordering claims (release-before-acquire) are statable.

The React state variable `activeStream` needs one extra care: a closure
created at render time captures the then-current value of the binding, and
`setActiveStream` updates the state for future renders without ever changing
that binding.  Within one `takePicture` invocation, every read of
`activeStream` therefore sees the value the binding had when the closure was
created — the value at tick entry — even after `setupCamera` has stored a
new stream.  The embedding threads the committed value through the state
record and additionally fixes `stale`, the binding's value, at entry;
reads that the source performs after a mid-tick `setActiveStream`
(the re-check at App.tsx:207 and the finally guard at App.tsx:289) read
`stale`, while reads that precede every write (App.tsx:88, 156, 181-195)
read the threaded value, with which `stale` still agrees there.  Refs
(`videoRef`, `canvasRef`, `capturingRef`) are mutable and always current,
so `videoPresent`, `videoSrc`, `canvasPresent` and the scheduler's
capturing flag are read from the up-to-date state.
-/

namespace CameraFrontend

/-- Embeds the TypeScript union `type IntervalUnit = 'seconds' | 'minutes' | 'hours'`. -/
inductive IntervalUnit where
  | seconds
  | minutes
  | hours
deriving DecidableEq, Repr

/-- Embeds the `useEffect` at App.tsx:57-62: `let ms = intervalValue * 1000;
if (intervalUnit === 'minutes') ms *= 60; if (intervalUnit === 'hours') ms *= 3600;
setActualIntervalMs(ms)`.  The effect re-runs on every change of
`intervalValue` or `intervalUnit`, so `actualIntervalMs` is this pure
function of the pair. -/
def intervalMs (value : Nat) (unit : IntervalUnit) : Nat :=
  let ms := value * 1000
  let ms := if unit = IntervalUnit.minutes then ms * 60 else ms
  let ms := if unit = IntervalUnit.hours then ms * 3600 else ms
  ms

/-- Embeds the `ScheduleOptions` interface at App.tsx:15-20. -/
structure ScheduleOptions where
  daylightOnly : Bool
  powerSaving : Bool
  startTime : String
  endTime : String
deriving DecidableEq, Repr

/-- JavaScript number that may be `NaN`: `none` is `NaN`. -/
abbrev JSNum := Option Int

/-- JavaScript `*` on a possibly-`NaN` left operand: `NaN * k = NaN`. -/
def jsMul (a : JSNum) (k : Int) : JSNum :=
  a.map (fun x => x * k)

/-- JavaScript `+` where either operand may be `NaN`: `NaN` propagates. -/
def jsAdd (a b : JSNum) : JSNum :=
  match a, b with
  | some x, some y => some (x + y)
  | _, _ => none

/-- JavaScript `x >= y` where `y` may be `NaN`: any comparison with `NaN` is false. -/
def jsGe (a : Int) (b : JSNum) : Bool :=
  match b with
  | some y => a ≥ y
  | none => false

/-- JavaScript `x <= y` where `y` may be `NaN`: any comparison with `NaN` is false. -/
def jsLe (a : Int) (b : JSNum) : Bool :=
  match b with
  | some y => a ≤ y
  | none => false

/-- Splits a character list on a separator character, the semantics of
JavaScript `s.split(sep)` for a one-character separator: the result always
has at least one (possibly empty) segment. -/
def splitCharList (sep : Char) : List Char → List (List Char)
  | [] => [[]]
  | c :: cs =>
      let rest := splitCharList sep cs
      if c = sep then [] :: rest
      else
        match rest with
        | [] => [[c]]
        | r :: rs => (c :: r) :: rs

/-- Accumulates the decimal value of a character list; any non-digit
character makes the whole parse `NaN` (`none`). -/
def digitsToNat : List Char → Nat → Option Nat
  | [], acc => some acc
  | c :: cs, acc =>
      if c.isDigit then digitsToNat cs (acc * 10 + (c.toNat - 48))
      else none

/-- Embeds JavaScript `Number(s)` on the strings this app feeds it: a
nonempty all-digit string parses to its value, the empty string parses to 0
(JavaScript `Number("") === 0`), and anything else — including the
`undefined` produced by destructuring a too-short `split` result, embedded
as a missing list element — is `NaN`. -/
def toNumberChars (cs : List Char) : JSNum :=
  match cs with
  | [] => some 0
  | cs =>
      match digitsToNat cs 0 with
      | some n => some (n : Int)
      | none => none

/-- Embeds App.tsx:76-80: `const [h, m] = s.split(':').map(Number);
h * 60 + m`.  Destructuring takes the first two elements of the split; a
missing second element is `undefined`, and `Number(undefined)` is `NaN`
(`none`). -/
def parseTime (s : String) : JSNum :=
  let parts := splitCharList ':' s.data
  let h : JSNum :=
    match parts[0]? with
    | some p => toNumberChars p
    | none => none
  let m : JSNum :=
    match parts[1]? with
    | some p => toNumberChars p
    | none => none
  jsAdd (jsMul h 60) m

/-- Embeds `isDaylight` (App.tsx:70-83).  `currentTime` stands for
`now.getHours() * 60 + now.getMinutes()`, the wall-clock input read from
`new Date()`. -/
def isDaylight (opts : ScheduleOptions) (currentTime : Int) : Bool :=
  if !opts.daylightOnly then true
  else
    jsGe currentTime (parseTime opts.startTime) &&
    jsLe currentTime (parseTime opts.endTime)

/-- Hardware-touching events, recorded in order of occurrence. -/
inductive Ev where
  | gumRequest
  | stopTracks (streamId : Nat)
  | upload (status : Nat)
deriving DecidableEq, Repr

/-- Embeds the component state the camera closures read and write:
`activeStream` (the `MediaStream` state variable, identified by an opaque
numeric handle), `videoPresent` / `videoSrc` (whether `videoRef.current` is
non-null and its `srcObject`), `canvasPresent` (`canvasRef.current`),
`status`, `lastCapture`, plus the event trace and a fresh-handle supply. -/
structure CamState where
  activeStream : Option Nat
  videoPresent : Bool
  videoSrc : Option Nat
  canvasPresent : Bool
  status : String
  lastCapture : Option String
  trace : List Ev
  nextStreamId : Nat
deriving DecidableEq, Repr

/-- Outcomes supplied by the external world during one tick: whether the
`getUserMedia` request is granted (and the error message when denied), the
video readiness level at the App.tsx:212 check, whether
`canvas.getContext('2d')` is non-null, whether `fetch` itself resolves, the
HTTP status of the upload response, and the encoded frame
`canvas.toDataURL` produces. -/
structure Env where
  gumOk : Bool
  gumMsg : String
  readyState : Nat
  ctxOk : Bool
  fetchOk : Bool
  uploadStatus : Nat
  imageData : String
deriving DecidableEq, Repr

/-- Embeds the `Response.ok` predicate of the Fetch API: status in 200-299. -/
def responseOk (status : Nat) : Bool :=
  200 ≤ status && status ≤ 299

/-- Embeds the attachment check used at App.tsx:88 and (negated) at
App.tsx:195: `activeStream && videoRef.current &&
videoRef.current.srcObject === activeStream`. -/
def camAttached (s : CamState) : Bool :=
  s.activeStream.isSome && s.videoPresent && s.videoSrc == s.activeStream

/-- Embeds `cleanupCamera` (App.tsx:155-164): if a stream is active, stop
its tracks, clear `activeStream`, null out `videoRef.current.srcObject`
when the video element exists, and set the status. -/
def cleanupCamera (s : CamState) : CamState :=
  match s.activeStream with
  | none => s
  | some x =>
      { s with
        trace := s.trace ++ [Ev.stopTracks x]
        activeStream := none
        videoSrc := if s.videoPresent then none else s.videoSrc
        status := "Camera powered down" }

/-- Embeds `cleanupCamera` (App.tsx:155-164) as invoked from inside the
`takePicture` closure, where the `activeStream` binding it reads may be
stale: the guard at App.tsx:156 and the `getTracks().forEach(stop)` at 157
act on `binding`, the render-time value, while the committed state
(`setActiveStream(null)`) and the rendering target are cleared as usual.
When `binding` equals the committed value this coincides with
`cleanupCamera`. -/
def cleanupCameraStale (binding : Option Nat) (s : CamState) : CamState :=
  match binding with
  | none => s
  | some x =>
      { s with
        trace := s.trace ++ [Ev.stopTracks x]
        activeStream := none
        videoSrc := if s.videoPresent then none else s.videoSrc
        status := "Camera powered down" }

/-- Embeds `setupCamera` (App.tsx:86-152).  If already attached, return the
existing stream without touching hardware; otherwise clean up any existing
stream first, then issue the `getUserMedia` request.  On grant, attach the
new stream when the video element exists; the readiness wait (canplay event
raced against a 5000 ms timeout) changes no embedded state.  On denial, the
catch block records the error status and rethrows.  Every `activeStream`
read in the source function precedes its `setActiveStream` write, so
reading the threaded value is exact here. -/
def setupCamera (env : Env) (s : CamState) : Except String Nat × CamState :=
  if camAttached s then
    (Except.ok (s.activeStream.getD 0), s)
  else
    let s := cleanupCamera s
    let s := { s with status := "Initializing camera..." }
    let s := { s with trace := s.trace ++ [Ev.gumRequest] }
    if env.gumOk then
      let sid := s.nextStreamId
      let s := { s with nextStreamId := sid + 1 }
      let s :=
        if s.videoPresent then
          { s with videoSrc := some sid, activeStream := some sid }
        else s
      (Except.ok sid, { s with status := "Camera ready" })
    else
      (Except.error env.gumMsg,
        { s with status := "Camera error: " ++ env.gumMsg })

/-- Embeds the power-saving acquisition block of `takePicture`
(App.tsx:194-240): when power saving is on and the camera is not attached,
set up the camera inside an inner try; after the 2000 ms settle, re-check
at App.tsx:207 and throw if anything is missing; the inner catch rewraps
any failure as `Failed to initialize camera: ...`.  The re-check reads
`!activeStream` from the STALE render-time binding (`stale`, the value at
entry, which `setupCamera`'s `setActiveStream` did not update), while
`videoRef.current` and its `srcObject` are live ref reads (the threaded
`videoPresent` / `videoSrc`).  On a cold start (`stale = none`) the
re-check therefore throws even though acquisition succeeded. -/
def powerSavingSetup (opts : ScheduleOptions) (env : Env) (s : CamState) :
    Except String Unit × CamState :=
  if opts.powerSaving then
    if !camAttached s then
      let stale := s.activeStream
      let s := { s with status := "Initializing camera for capture..." }
      match setupCamera env s with
      | (Except.ok _, s) =>
          if !(stale.isSome && s.videoPresent && s.videoSrc.isSome) then
            (Except.error
              ("Failed to initialize camera: " ++ "Camera failed to initialize properly"), s)
          else
            (Except.ok (), { s with status := "Camera ready for capture" })
      | (Except.error msg, s) =>
          (Except.error ("Failed to initialize camera: " ++ msg), s)
    else
      (Except.ok (), s)
  else
    (Except.ok (), s)

/-- Embeds the body of the `try` block of `takePicture` (App.tsx:192-282):
power-saving acquisition, reference checks, canvas context check, frame
draw and encode, upload, and the non-2xx throw
`Server response: <status>`. -/
def takePictureTry (opts : ScheduleOptions) (env : Env) (s : CamState) :
    Except String Bool × CamState :=
  match powerSavingSetup opts env s with
  | (Except.error e, s) => (Except.error e, s)
  | (Except.ok _, s) =>
      if !s.videoPresent || !s.canvasPresent then
        (Except.error "Video or canvas reference not available", s)
      else if !env.ctxOk then
        (Except.error "Could not get canvas context", s)
      else
        let s := { s with lastCapture := some env.imageData }
        let s := { s with status := "Sending image..." }
        if !env.fetchOk then
          (Except.error "Failed to fetch", s)
        else
          let s := { s with trace := s.trace ++ [Ev.upload env.uploadStatus] }
          if !responseOk env.uploadStatus then
            (Except.error ("Server response: " ++ toString env.uploadStatus), s)
          else
            (true |> Except.ok, { s with status := "Image captured and sent successfully" })

/-- Embeds `takePicture` (App.tsx:179-294).  The daylight gate may return
`false` (skipped) before the try block; the catch converts any thrown error
to status text and the `false` result.  The finally guard at App.tsx:289
(`scheduleOptions.powerSaving && activeStream`) and the `cleanupCamera` it
calls read the STALE render-time `activeStream` binding (`stale`, the value
at tick entry): after a mid-tick acquire from a cold start (`stale = none`)
the guard is false and the freshly acquired stream is NOT released.  In the
skip branch (App.tsx:185) no write has happened yet, so `stale` still
equals the committed value there. -/
def takePicture (opts : ScheduleOptions) (currentTime : Int) (env : Env)
    (s : CamState) : Bool × CamState :=
  let stale := s.activeStream
  if opts.daylightOnly && !isDaylight opts currentTime then
    let s := { s with status := "Skipping capture: outside daylight hours" }
    let s :=
      if opts.powerSaving && stale.isSome then cleanupCameraStale stale s else s
    (false, s)
  else
    let (r, s) := takePictureTry opts env s
    let (res, s) :=
      match r with
      | Except.ok b => (b, s)
      | Except.error msg => (false, { s with status := "Capture error: " ++ msg })
    let s :=
      if opts.powerSaving && stale.isSome then cleanupCameraStale stale s else s
    (res, s)

/-- Embeds App.tsx:332-334: `(!captureSuccess && scheduleOptions.daylightOnly)
? Math.min(60000, actualIntervalMs) : actualIntervalMs`. -/
def nextDelay (captureSuccess : Bool) (daylightOnly : Bool) (intervalMsArg : Nat) : Nat :=
  if !captureSuccess && daylightOnly then min 60000 intervalMsArg
  else intervalMsArg

/-- Outcome of one firing of the scheduler callback: the tick result
(`none` when the run-state check at entry vetoed running `takePicture`),
the camera state at the moment the arming decision is made, and the delay
armed for the next tick (`none` when no timer was armed). -/
structure TickOutcome where
  result : Option Bool
  post : CamState
  armedDelay : Option Nat
deriving DecidableEq, Repr

/-- Embeds one firing of the self-rescheduling callback built by
`scheduleNextCapture` (App.tsx:322-346).  `capturingAtStart` is
`capturingRef.current` when the callback fires; `capturingAfter` is its
value after `await takePicture()` resolves (it may have been flipped by
`toggleCapture` while the attempt was in flight).  A next timer is armed —
with the adapted delay — only when the flag is still set at both checks. -/
def schedulerTick (opts : ScheduleOptions) (intervalMsArg : Nat)
    (currentTime : Int) (env : Env)
    (capturingAtStart capturingAfter : Bool) (s : CamState) : TickOutcome :=
  if capturingAtStart then
    let (success, s) := takePicture opts currentTime env s
    if capturingAfter then
      { result := some success
        post := s
        armedDelay := some (nextDelay success opts.daylightOnly intervalMsArg) }
    else
      { result := some success, post := s, armedDelay := none }
  else
    { result := none, post := s, armedDelay := none }

/-- Embeds the scheduler run-state: the `capturing` flag (mirrored by
`capturingRef`) and the pending timer handle `intervalId`. -/
structure SchedState where
  capturing : Bool
  intervalId : Option Nat
deriving DecidableEq, Repr

/-- Embeds the stop branch of `toggleCapture` (App.tsx:298-311): clear any
armed timer, drop the capturing flag, set the status, and release the
camera when power saving is on. -/
def stopCapture (opts : ScheduleOptions) (sched : SchedState) (cam : CamState) :
    SchedState × CamState :=
  let sched := { sched with intervalId := none }
  let sched := { sched with capturing := false }
  let cam := { cam with status := "Capture stopped" }
  let cam := if opts.powerSaving then cleanupCamera cam else cam
  (sched, cam)

/-! ### Helper lemmas (shared) -/

lemma cleanupCamera_activeStream (s : CamState) :
    (cleanupCamera s).activeStream = none := by
  unfold cleanupCamera
  cases h : s.activeStream <;> simp [h]

lemma cleanupCamera_fields (s : CamState) :
    (cleanupCamera s).videoPresent = s.videoPresent ∧
    (cleanupCamera s).canvasPresent = s.canvasPresent ∧
    (cleanupCamera s).lastCapture = s.lastCapture := by
  unfold cleanupCamera
  cases h : s.activeStream <;> simp

lemma isDaylight_false_daylightOnly (opts : ScheduleOptions) (ct : Int)
    (h : isDaylight opts ct = false) : opts.daylightOnly = true := by
  by_contra hb
  have hb' : opts.daylightOnly = false := by
    cases hd : opts.daylightOnly
    · rfl
    · exact absurd hd hb
  simp [isDaylight, hb'] at h

/-! ### Concrete example inputs (used by witnesses and counterexamples) -/

/-- Options with both policies off, matching the initial component state
apart from the time strings. -/
def optsPlain : ScheduleOptions :=
  { daylightOnly := false, powerSaving := false, startTime := "08:00", endTime := "18:00" }

/-- Options with daylight gating on over the default 08:00-18:00 window. -/
def optsDay : ScheduleOptions :=
  { daylightOnly := true, powerSaving := false, startTime := "08:00", endTime := "18:00" }

/-- Options with both daylight gating and power saving on. -/
def optsDayPower : ScheduleOptions :=
  { daylightOnly := true, powerSaving := true, startTime := "08:00", endTime := "18:00" }

/-- Options with power saving on and daylight gating off. -/
def optsPower : ScheduleOptions :=
  { daylightOnly := false, powerSaving := true, startTime := "08:00", endTime := "18:00" }

/-- A state in which stream 0 is active and attached to the video element. -/
def sAttached : CamState :=
  { activeStream := some 0, videoPresent := true, videoSrc := some 0,
    canvasPresent := true, status := "Ready", lastCapture := none,
    trace := [], nextStreamId := 1 }

/-- A state whose stream 5 is active but no longer attached to the video
element. -/
def sDetached : CamState :=
  { activeStream := some 5, videoPresent := true, videoSrc := none,
    canvasPresent := true, status := "Ready", lastCapture := none,
    trace := [], nextStreamId := 6 }

/-- A state with no active stream. -/
def sIdle : CamState :=
  { activeStream := none, videoPresent := true, videoSrc := none,
    canvasPresent := true, status := "Ready", lastCapture := none,
    trace := [], nextStreamId := 0 }

/-- An environment in which everything succeeds and the upload returns 200. -/
def envOk : Env :=
  { gumOk := true, gumMsg := "", readyState := 4, ctxOk := true,
    fetchOk := true, uploadStatus := 200, imageData := "frame" }

/-- An environment identical to `envOk` except the upload sink answers 404. -/
def env404 : Env :=
  { gumOk := true, gumMsg := "", readyState := 4, ctxOk := true,
    fetchOk := true, uploadStatus := 404, imageData := "frame" }

/-- An environment in which the hardware request is denied. -/
def envDenied : Env :=
  { gumOk := false, gumMsg := "Permission denied", readyState := 0, ctxOk := true,
    fetchOk := true, uploadStatus := 200, imageData := "frame" }

/-! ### Claim theorems -/

/-- C5: for every pair (value, unit), the derived period in milliseconds is
value times 1000, 60000, 3600000 for seconds, minutes, hours respectively.
The recomputation on every change of value or unit is the App.tsx:57-62
effect, embedded as `intervalMs` being a pure function of the pair. -/
theorem c5_interval_ms (v : Nat) :
    intervalMs v IntervalUnit.seconds = v * 1000 ∧
    intervalMs v IntervalUnit.minutes = v * 60000 ∧
    intervalMs v IntervalUnit.hours = v * 3600000 := by
  refine ⟨?_, ?_, ?_⟩ <;> simp [intervalMs] <;> ring

/-- Witness for C5 at value 5. -/
theorem c5_interval_ms_witness :
    intervalMs 5 IntervalUnit.seconds = 5 * 1000 ∧
    intervalMs 5 IntervalUnit.minutes = 5 * 60000 ∧
    intervalMs 5 IntervalUnit.hours = 5 * 3600000 :=
  c5_interval_ms 5

/-- C3: with daylightOnly=true and well-formed times (both parse to a
number of minutes), the policy permits capture exactly when the current
minutes-since-midnight lie in the closed interval between them; with
daylightOnly=false it always permits. -/
theorem c3_daylight_window (opts : ScheduleOptions) (ct sm em : Int) :
    (opts.daylightOnly = false → isDaylight opts ct = true) ∧
    (opts.daylightOnly = true →
      parseTime opts.startTime = some sm →
      parseTime opts.endTime = some em →
      (isDaylight opts ct = true ↔ sm ≤ ct ∧ ct ≤ em)) := by
  constructor
  · intro h
    simp [isDaylight, h]
  · intro hd hs he
    simp [isDaylight, hd, hs, he, jsGe, jsLe, and_comm]

/-- Witness for C3 on the 08:00-18:00 window: 08:00 (minute 480) and 18:00
(minute 1080) are permitted, 07:59 and 18:01 are skipped. -/
theorem c3_daylight_window_witness :
    isDaylight optsDay 480 = true ∧ isDaylight optsDay 1080 = true ∧
    isDaylight optsDay 479 = false ∧ isDaylight optsDay 1081 = false := by
  have h480 := ((c3_daylight_window optsDay 480 480 1080).2 rfl (by decide) (by decide)).mpr
    (by decide)
  have h1080 := ((c3_daylight_window optsDay 1080 480 1080).2 rfl (by decide) (by decide)).mpr
    (by decide)
  refine ⟨h480, h1080, ?_, ?_⟩ <;> decide

/-- C8: with daylightOnly=true and an inverted window (end minutes strictly
below start minutes) the policy permits capture at no time at all, and
every tick of `takePicture` is skipped. -/
theorem c8_inverted_window (opts : ScheduleOptions) (ct sm em : Int)
    (hd : opts.daylightOnly = true)
    (hs : parseTime opts.startTime = some sm)
    (he : parseTime opts.endTime = some em)
    (hinv : em < sm) :
    isDaylight opts ct = false ∧
    ∀ (env : Env) (s : CamState), (takePicture opts ct env s).1 = false := by
  have hday : isDaylight opts ct = false := by
    simp only [isDaylight, hd, Bool.not_true, Bool.false_eq_true, if_false, hs, he,
      jsGe, jsLe, Bool.and_eq_false_iff]
    by_cases hle : sm ≤ ct
    · right
      simpa using not_le.mpr (lt_of_lt_of_le hinv hle)
    · left
      simpa using hle
  refine ⟨hday, fun env s => ?_⟩
  simp [takePicture, hd, hday]

/-- Witness for C8 on the inverted window 18:00-08:00 at noon. -/
theorem c8_inverted_window_witness :
    isDaylight { daylightOnly := true, powerSaving := false,
                 startTime := "18:00", endTime := "08:00" } 720 = false ∧
    (takePicture { daylightOnly := true, powerSaving := false,
                   startTime := "18:00", endTime := "08:00" } 720 envOk sAttached).1 = false := by
  have h := c8_inverted_window
    { daylightOnly := true, powerSaving := false, startTime := "18:00", endTime := "08:00" }
    720 1080 480 rfl (by decide) (by decide) (by decide)
  exact ⟨h.1, h.2 envOk sAttached⟩

/-- C10: with daylightOnly=true and a start or end string that does not
parse (a clock component is NaN), the policy — a total function, it cannot
throw — permits capture at no time: every comparison against NaN is false. -/
theorem c10_nan_window (opts : ScheduleOptions) (ct : Int)
    (hd : opts.daylightOnly = true)
    (hbad : parseTime opts.startTime = none ∨ parseTime opts.endTime = none) :
    isDaylight opts ct = false := by
  rcases hbad with h | h <;> simp [isDaylight, hd, h, jsGe, jsLe]

/-- Witness for C10 with the non-numeric start string "noon". -/
theorem c10_nan_window_witness :
    isDaylight { daylightOnly := true, powerSaving := false,
                 startTime := "noon", endTime := "18:00" } 720 = false :=
  c10_nan_window _ 720 rfl (Or.inl (by decide))

/-- C2: for a tick of the running scheduler (capturing flag set at both
run-state checks), the armed delay is min(60000, periodMs) when the tick
result is the falsy `Skipped` value and daylightOnly is on, and the
configured periodMs in every other case (truthy result, or daylightOnly
off). -/
theorem c2_next_delay (opts : ScheduleOptions) (ms : Nat) (ct : Int) (env : Env)
    (s : CamState) :
    ((schedulerTick opts ms ct env true true s).result = some false →
      opts.daylightOnly = true →
      (schedulerTick opts ms ct env true true s).armedDelay = some (min 60000 ms)) ∧
    ((schedulerTick opts ms ct env true true s).result = some true ∨
        opts.daylightOnly = false →
      (schedulerTick opts ms ct env true true s).armedDelay = some ms) := by
  rcases htp : takePicture opts ct env s with ⟨b, s2⟩
  cases b <;> cases hd : opts.daylightOnly <;>
    simp [schedulerTick, htp, nextDelay, hd]

/-- Witness for C2: a 404 tick under daylight gating arms min(60000, ms)
— 60000 for a 120000 ms period — while a successful tick arms the 5000 ms
period unchanged. -/
theorem c2_next_delay_witness :
    (schedulerTick optsDay 120000 720 env404 true true sAttached).armedDelay = some (min 60000 120000) ∧
    (schedulerTick optsDay 5000 720 envOk true true sAttached).armedDelay = some 5000 ∧
    min 60000 120000 = 60000 :=
  ⟨(c2_next_delay optsDay 120000 720 env404 sAttached).1 (by decide) rfl,
   (c2_next_delay optsDay 5000 720 envOk sAttached).2 (Or.inl (by decide)),
   by decide⟩

/-- C7: stopping while an attempt is in flight (capturing flag cleared by
the time the attempt resolves) arms no further timer; `stop()` itself
clears the pending timer handle, drops the running flag, and under power
saving releases the camera session. -/
theorem c7_stop_semantics (opts : ScheduleOptions) (ms : Nat) (ct : Int) (env : Env)
    (s cam : CamState) (sched : SchedState) :
    (schedulerTick opts ms ct env true false s).armedDelay = none ∧
    (stopCapture opts sched cam).1.intervalId = none ∧
    (stopCapture opts sched cam).1.capturing = false ∧
    (opts.powerSaving = true → (stopCapture opts sched cam).2.activeStream = none) := by
  refine ⟨?_, ?_, ?_, fun hps => ?_⟩
  · rcases htp : takePicture opts ct env s with ⟨b, s2⟩
    simp [schedulerTick, htp]
  · simp [stopCapture]
  · simp [stopCapture]
  · simp [stopCapture, hps, cleanupCamera_activeStream]

/-- Witness for C7 with power saving on and an attached stream. -/
theorem c7_stop_semantics_witness :
    (schedulerTick optsDayPower 5000 720 envOk true false sAttached).armedDelay = none ∧
    (stopCapture optsDayPower { capturing := true, intervalId := some 7 } sAttached).1.intervalId
      = none ∧
    (stopCapture optsDayPower { capturing := true, intervalId := some 7 } sAttached).2.activeStream
      = none := by
  have h := c7_stop_semantics optsDayPower 5000 720 envOk sAttached sAttached
    { capturing := true, intervalId := some 7 }
  exact ⟨h.1, h.2.1, h.2.2.2 rfl⟩

/-- C1 counterexample: with a healthy attached camera and an upload sink
answering 404, `takePicture` reports the status code in the status text but
returns `false` — the falsy skip/failure value — not the truthy `Captured`
value the claim asserts. -/
theorem c1_counterexample :
    (takePicture optsPlain 720 env404 sAttached).1 = false ∧
    (takePicture optsPlain 720 env404 sAttached).2.status =
      "Capture error: Server response: 404" :=
  ⟨by decide, by decide⟩

/-- C1 (amended): a non-2xx upload response yields status text carrying the
numeric status code, and the tick result is `false` — the same falsy value
as a skipped tick — not the truthy `Captured` value.  Stated away from
power saving so the error status is not overwritten by the camera-release
status of the finally block. -/
theorem c1_upload_failure (opts : ScheduleOptions) (ct : Int) (env : Env) (s : CamState)
    (hps : opts.powerSaving = false)
    (hdl : isDaylight opts ct = true)
    (hv : s.videoPresent = true) (hc : s.canvasPresent = true)
    (hctx : env.ctxOk = true) (hf : env.fetchOk = true)
    (hbad : responseOk env.uploadStatus = false) :
    (takePicture opts ct env s).1 = false ∧
    (takePicture opts ct env s).2.status =
      "Capture error: " ++ ("Server response: " ++ toString env.uploadStatus) := by
  simp [takePicture, takePictureTry, powerSavingSetup, hps, hdl, hv, hc, hctx, hf, hbad]

/-- Witness for the amended C1 at status 404. -/
theorem c1_upload_failure_witness :
    (takePicture optsPlain 720 env404 sAttached).1 = false ∧
    (takePicture optsPlain 720 env404 sAttached).2.status =
      "Capture error: " ++ ("Server response: " ++ toString env404.uploadStatus) :=
  c1_upload_failure optsPlain 720 env404 sAttached rfl (by decide) rfl rfl rfl rfl (by decide)

lemma setupCamera_fields (env : Env) (s : CamState) :
    (setupCamera env s).2.videoPresent = s.videoPresent ∧
    (setupCamera env s).2.canvasPresent = s.canvasPresent ∧
    (setupCamera env s).2.lastCapture = s.lastCapture := by
  by_cases h : camAttached s = true
  · simp [setupCamera, h]
  · have hf := cleanupCamera_fields s
    cases hg : env.gumOk <;>
      by_cases hv : s.videoPresent = true <;>
        simp [setupCamera, h, hg, hv, hf.1, hf.2.1, hf.2.2]

lemma powerSavingSetup_fields (opts : ScheduleOptions) (env : Env) (s : CamState) :
    (powerSavingSetup opts env s).2.videoPresent = s.videoPresent ∧
    (powerSavingSetup opts env s).2.canvasPresent = s.canvasPresent := by
  by_cases hps : opts.powerSaving = true
  · by_cases hat : camAttached s = true
    · simp [powerSavingSetup, hps, hat]
    · rcases hsc : setupCamera env { s with status := "Initializing camera for capture..." }
        with ⟨r, s2⟩
      have hf1 : s2.videoPresent = s.videoPresent := by
        have h0 := (setupCamera_fields env
          { s with status := "Initializing camera for capture..." }).1
        rw [hsc] at h0
        exact h0
      have hf2 : s2.canvasPresent = s.canvasPresent := by
        have h0 := (setupCamera_fields env
          { s with status := "Initializing camera for capture..." }).2.1
        rw [hsc] at h0
        exact h0
      cases r with
      | ok u =>
          cases has : s.activeStream <;> cases hvs : s2.videoSrc <;>
            by_cases hvp : s2.videoPresent = true <;>
              simp_all [powerSavingSetup, hps, hat]
      | error msg =>
          simp [powerSavingSetup, hps, hat, hsc, hf1, hf2]
  · simp [powerSavingSetup, hps]

lemma powerSavingSetup_ok_gum (opts : ScheduleOptions) (env : Env) (s : CamState)
    (r : Unit) (s2 : CamState)
    (hpss : powerSavingSetup opts env s = (Except.ok r, s2))
    (hps : opts.powerSaving = true) (hat : camAttached s = false) : env.gumOk = true := by
  by_contra hg
  have hg2 : env.gumOk = false := by
    cases hgg : env.gumOk
    · rfl
    · exact absurd hgg hg
  have hat2 : camAttached { s with status := "Initializing camera for capture..." } = false := by
    simpa [camAttached] using hat
  simp [powerSavingSetup, hps, hat, setupCamera, hat2, hg2] at hpss

lemma takePictureTry_ok (opts : ScheduleOptions) (env : Env) (s : CamState) (b : Bool)
    (h : (takePictureTry opts env s).1 = Except.ok b) :
    b = true ∧
    s.videoPresent = true ∧ s.canvasPresent = true ∧
    env.ctxOk = true ∧ env.fetchOk = true ∧
    responseOk env.uploadStatus = true ∧
    (opts.powerSaving = true → camAttached s = false → env.gumOk = true) ∧
    (takePictureTry opts env s).2.lastCapture = some env.imageData := by
  rcases hpss : powerSavingSetup opts env s with ⟨r0, s2⟩
  have hF1 : s2.videoPresent = s.videoPresent := by
    have h0 := (powerSavingSetup_fields opts env s).1
    rw [hpss] at h0
    exact h0
  have hF2 : s2.canvasPresent = s.canvasPresent := by
    have h0 := (powerSavingSetup_fields opts env s).2
    rw [hpss] at h0
    exact h0
  cases r0 with
  | error e => simp [takePictureTry, hpss] at h
  | ok u =>
      have hgum : opts.powerSaving = true → camAttached s = false → env.gumOk = true :=
        fun hps hat => powerSavingSetup_ok_gum opts env s u s2 hpss hps hat
      by_cases hvp : s2.videoPresent = true
      case neg => exfalso; simp_all [takePictureTry]
      case pos =>
      by_cases hcp : s2.canvasPresent = true
      case neg => exfalso; simp_all [takePictureTry]
      case pos =>
      by_cases h2 : env.ctxOk = true
      case neg => exfalso; simp_all [takePictureTry]
      case pos =>
      by_cases h3 : env.fetchOk = true
      case neg => exfalso; simp_all [takePictureTry]
      case pos =>
      by_cases h4 : responseOk env.uploadStatus = true
      case neg => exfalso; simp_all [takePictureTry]
      case pos =>
      have hb : b = true := by
        have hcopy := h
        simp [takePictureTry, hpss, hvp, hcp, h2, h3, h4] at hcopy
        first
        | exact hcopy.symm
        | exact hcopy
      refine ⟨hb, hF1 ▸ hvp, hF2 ▸ hcp, h2, h3, h4, hgum, ?_⟩
      simp [takePictureTry, hpss, hvp, hcp, h2, h3, h4]

lemma takePicture_true (opts : ScheduleOptions) (ct : Int) (env : Env) (s : CamState)
    (h : (takePicture opts ct env s).1 = true) :
    isDaylight opts ct = true ∧
    s.videoPresent = true ∧ s.canvasPresent = true ∧
    env.ctxOk = true ∧ env.fetchOk = true ∧
    responseOk env.uploadStatus = true ∧
    (opts.powerSaving = true → camAttached s = false → env.gumOk = true) ∧
    (takePicture opts ct env s).2.lastCapture = some env.imageData := by
  by_cases hskip : (opts.daylightOnly && !isDaylight opts ct) = true
  · exfalso
    simp [takePicture, hskip] at h
  · rcases htr : takePictureTry opts env s with ⟨r, s2⟩
    cases r with
    | error msg =>
        exfalso
        simp [takePicture, hskip, htr] at h
    | ok b =>
        have hok := takePictureTry_ok opts env s b (by rw [htr])
        have hday : isDaylight opts ct = true := by
          cases hdo : opts.daylightOnly
          · simp [isDaylight, hdo]
          · rw [Bool.not_eq_true] at hskip
            rw [hdo] at hskip
            simpa using hskip
        have hlast : s2.lastCapture = some env.imageData := by
          have h0 := hok.2.2.2.2.2.2.2
          rw [htr] at h0
          exact h0
        refine ⟨hday, hok.2.1, hok.2.2.1, hok.2.2.2.1, hok.2.2.2.2.1, hok.2.2.2.2.2.1,
          hok.2.2.2.2.2.2.1, ?_⟩
        cases hx : s.activeStream <;> cases hps2 : opts.powerSaving <;>
          simp [takePicture, hskip, htr, hx, hps2, cleanupCameraStale, hlast]

/-- C6: with a session active and attached to the video element, `acquire`
(setupCamera) returns that same session with the state — in particular the
hardware event trace — completely unchanged, so no second `getUserMedia`
request is issued; with a session active but not attached, it first stops
that session's tracks and only then issues the hardware request, as the
appended event order records. -/
theorem c6_acquire_idempotent (env : Env) (s : CamState) (x : Nat) :
    (s.activeStream = some x → camAttached s = true →
      setupCamera env s = (Except.ok x, s)) ∧
    (s.activeStream = some x → camAttached s = false →
      (setupCamera env s).2.trace = s.trace ++ [Ev.stopTracks x, Ev.gumRequest]) := by
  constructor
  · intro hx h
    simp [setupCamera, h, hx]
  · intro hx h
    cases hg : env.gumOk <;> by_cases hv : s.videoPresent = true <;>
      simp [setupCamera, h, hg, hv, cleanupCamera, hx]

/-- Witness for C6: an attached acquire returns stream 0 without touching
state; a detached acquire stops the old stream 5 before the new hardware
request. -/
theorem c6_acquire_idempotent_witness :
    setupCamera envOk sAttached = (Except.ok 0, sAttached) ∧
    (setupCamera envOk sDetached).2.trace =
      sDetached.trace ++ [Ev.stopTracks 5, Ev.gumRequest] :=
  ⟨(c6_acquire_idempotent envOk sAttached 0).1 rfl (by decide),
   (c6_acquire_idempotent envOk sDetached 5).2 rfl (by decide)⟩

/-- C4 exhibit: the claimed release does NOT hold on the standard
power-saving tick from a released camera.  With `powerSaving = true`, no
session at entry, video and canvas present, and the hardware request
granted, `takePicture` acquires stream 0 and attaches it, then the re-check
at App.tsx:207 reads the stale `activeStream` binding (still null) and
throws `Camera failed to initialize properly`; the finally guard at
App.tsx:289 reads the same stale null and skips `cleanupCamera`.  After the
tick the result is false, stream 0 is still committed and attached, the
event trace holds the `getUserMedia` request but no `stopTracks` — the
stream is live — and the scheduler nevertheless arms the next timer with
that stream retained. -/
theorem c4_stale_leak :
    (takePicture optsPower 720 envOk sIdle).1 = false ∧
    (takePicture optsPower 720 envOk sIdle).2.activeStream = some 0 ∧
    (takePicture optsPower 720 envOk sIdle).2.videoSrc = some 0 ∧
    (takePicture optsPower 720 envOk sIdle).2.status =
      "Capture error: Failed to initialize camera: Camera failed to initialize properly" ∧
    (takePicture optsPower 720 envOk sIdle).2.trace = [Ev.gumRequest] ∧
    (schedulerTick optsPower 5000 720 envOk true true sIdle).armedDelay = some 5000 ∧
    (schedulerTick optsPower 5000 720 envOk true true sIdle).post.activeStream = some 0 := by
  refine ⟨by decide, by decide, by decide, by decide, by decide, by decide, by decide⟩

/-- C9: `takePicture` conflates skip and failure in one falsy value: a
policy skip, a missing canvas, a denied hardware request under power
saving, and a non-2xx upload all produce `false`; `true` is produced only
when a frame was encoded (lastCapture set) and the upload answered 2xx; and
any `false` tick under daylight gating makes the scheduler arm the
shortened min(60000, periodMs) delay. -/
theorem c9_result_conflation (opts : ScheduleOptions) (ms : Nat) (ct : Int) (env : Env)
    (s : CamState) :
    ((takePicture opts ct env s).1 = true →
      responseOk env.uploadStatus = true ∧
      (takePicture opts ct env s).2.lastCapture = some env.imageData) ∧
    (isDaylight opts ct = false → (takePicture opts ct env s).1 = false) ∧
    (s.canvasPresent = false → (takePicture opts ct env s).1 = false) ∧
    (opts.powerSaving = true → s.activeStream = none → env.gumOk = false →
      (takePicture opts ct env s).1 = false) ∧
    (responseOk env.uploadStatus = false → (takePicture opts ct env s).1 = false) ∧
    ((takePicture opts ct env s).1 = false → opts.daylightOnly = true →
      (schedulerTick opts ms ct env true true s).armedDelay = some (min 60000 ms)) := by
  refine ⟨?_, ?_, ?_, ?_, ?_, ?_⟩
  · intro h
    exact ⟨(takePicture_true opts ct env s h).2.2.2.2.2.1,
           (takePicture_true opts ct env s h).2.2.2.2.2.2.2⟩
  · intro hday
    cases hr : (takePicture opts ct env s).1
    · rfl
    · exact absurd (takePicture_true opts ct env s hr).1 (by simp [hday])
  · intro hc
    cases hr : (takePicture opts ct env s).1
    · rfl
    · exact absurd (takePicture_true opts ct env s hr).2.2.1 (by simp [hc])
  · intro hps hnone hg
    cases hr : (takePicture opts ct env s).1
    · rfl
    · have hat : camAttached s = false := by simp [camAttached, hnone]
      have hgum := (takePicture_true opts ct env s hr).2.2.2.2.2.2.1 hps hat
      exact absurd hgum (by simp [hg])
  · intro hbad
    cases hr : (takePicture opts ct env s).1
    · rfl
    · exact absurd (takePicture_true opts ct env s hr).2.2.2.2.2.1 (by simp [hbad])
  · intro hres hdo
    rcases htp : takePicture opts ct env s with ⟨b, s2⟩
    rw [htp] at hres
    simp at hres
    simp [schedulerTick, htp, hres, nextDelay, hdo]

/-- Witness for C9: a 200 tick is truthy with the frame recorded; a 404
tick is falsy and, under daylight gating with a 120000 ms period, arms the
shortened 60000 ms re-check delay. -/
theorem c9_result_conflation_witness :
    (responseOk envOk.uploadStatus = true ∧
      (takePicture optsDay 720 envOk sAttached).2.lastCapture = some envOk.imageData) ∧
    (takePicture optsDay 720 env404 sAttached).1 = false ∧
    (schedulerTick optsDay 120000 720 env404 true true sAttached).armedDelay =
      some (min 60000 120000) :=
  ⟨(c9_result_conflation optsDay 120000 720 envOk sAttached).1 (by decide),
   (c9_result_conflation optsDay 120000 720 env404 sAttached).2.2.2.2.1 (by decide),
   (c9_result_conflation optsDay 120000 720 env404 sAttached).2.2.2.2.2 (by decide) rfl⟩

end CameraFrontend
